import Mathlib

/-!
Shallow embedding of the cmms-and-erp-integration-simulation repository.

Namespace `CmmsErp` models `src/cmms_erp_integration/src/translator.py`
(class `DataTranslator`): python dicts become structures whose optional
keys are `Option` fields, `datetime` objects become `PyDateTime`, and
raised exceptions become `Except TransError`.

Namespace `Pipeline` models the store adapters and the coordinator of
`src/tractian_integrations_engineering_technical_test/src`
(`cmms_adapter.py`, `tracos_adapter.py`, `main.py`): the MongoDB
collection becomes a `List WorkOrder` and `update_one` with `$set` /
`$unset` becomes an explicit first-match update.
-/

namespace CmmsErp

/-- Model of a python `datetime.datetime` value: calendar and clock
components plus an optional UTC offset in minutes (`none` = naive). -/
structure PyDateTime where
  year : Nat
  month : Nat
  day : Nat
  hour : Nat
  minute : Nat
  second : Nat
  microsecond : Nat
  tzOffsetMinutes : Option Int
deriving DecidableEq, Repr

/-- Numeric value of a decimal digit character, `none` otherwise. -/
def digitVal (c : Char) : Option Nat :=
  if c.isDigit then some (c.toNat - 48) else none

/-- Read exactly `n` decimal digits from the front of the character list,
returning their value and the remaining characters. -/
def readDigits : Nat → Nat → List Char → Option (Nat × List Char)
  | 0, acc, cs => some (acc, cs)
  | n + 1, acc, cs =>
    match cs with
    | [] => none
    | c :: rest =>
      match digitVal c with
      | some d => readDigits n (acc * 10 + d) rest
      | none => none

/-- Value of a list of decimal digit characters read left to right. -/
def digitsToNat (ds : List Char) : Nat :=
  ds.foldl (fun a c => a * 10 + (c.toNat - 48)) 0

/-- Model of the trailing UTC-offset part accepted by
`datetime.fromisoformat`: empty (naive) or a sign followed by `HH:MM`. -/
def readOffsetTail (cs : List Char) : Option (Option Int) :=
  match cs with
  | [] => some none
  | c :: rest =>
    if c = '+' ∨ c = '-' then
      match readDigits 2 0 rest with
      | some (hh, rest1) =>
        match rest1 with
        | ':' :: rest2 =>
          match readDigits 2 0 rest2 with
          | some (mm, rest3) =>
            if rest3 = [] ∧ mm ≤ 59 ∧ hh * 60 + mm < 1440 then
              some (some (if c = '-' then -(((hh * 60 + mm : Nat)) : Int)
                          else ((hh * 60 + mm : Nat) : Int)))
            else none
          | none => none
        | _ => none
      | none => none
    else none

/-- Model of the time-of-day part accepted by `datetime.fromisoformat`:
`HH:MM`, optionally `:SS`, optionally `.ffffff` (1 to 6 fractional
digits), then an optional UTC offset. -/
def readTimeTail (y mo d : Nat) (cs : List Char) : Option PyDateTime :=
  match readDigits 2 0 cs with
  | some (h, rest1) =>
    match rest1 with
    | ':' :: rest2 =>
      match readDigits 2 0 rest2 with
      | some (mi, rest3) =>
        if h ≤ 23 ∧ mi ≤ 59 then
          match rest3 with
          | ':' :: rest4 =>
            match readDigits 2 0 rest4 with
            | some (sec, rest5) =>
              if sec ≤ 59 then
                match rest5 with
                | '.' :: rest6 =>
                  let p := rest6.span Char.isDigit
                  if 1 ≤ p.1.length ∧ p.1.length ≤ 6 then
                    match readOffsetTail p.2 with
                    | some tz =>
                      some ⟨y, mo, d, h, mi, sec,
                            digitsToNat p.1 * 10 ^ (6 - p.1.length), tz⟩
                    | none => none
                  else none
                | _ =>
                  match readOffsetTail rest5 with
                  | some tz => some ⟨y, mo, d, h, mi, sec, 0, tz⟩
                  | none => none
              else none
            | none => none
          | _ =>
            match readOffsetTail rest3 with
            | some tz => some ⟨y, mo, d, h, mi, 0, 0, tz⟩
            | none => none
        else none
      | none => none
    | _ => none
  | none => none

/-- Model of python `datetime.fromisoformat` on the ISO-8601 subset the
repository exchanges: `YYYY-MM-DD`, optionally followed by `T` or a
space and a time of day with optional fraction and UTC offset. Returns
`none` where python raises `ValueError`. -/
def fromisoformat (s : String) : Option PyDateTime :=
  match readDigits 4 0 s.toList with
  | some (y, rest) =>
    match rest with
    | '-' :: rest1 =>
      match readDigits 2 0 rest1 with
      | some (mo, rest2) =>
        match rest2 with
        | '-' :: rest3 =>
          match readDigits 2 0 rest3 with
          | some (d, rest4) =>
            if 1 ≤ y ∧ 1 ≤ mo ∧ mo ≤ 12 ∧ 1 ≤ d ∧ d ≤ 31 then
              match rest4 with
              | [] => some ⟨y, mo, d, 0, 0, 0, 0, none⟩
              | sep :: rest5 =>
                if sep = 'T' ∨ sep = ' ' then readTimeTail y mo d rest5
                else none
            else none
          | none => none
        | _ => none
      | none => none
    | _ => none
  | none => none

/-- Zero-pad a natural number to two digits, as python `%02d`. -/
def pad2 (n : Nat) : String :=
  if n < 10 then "0" ++ toString n else toString n

/-- Zero-pad a natural number to four digits, as python `%04d`. -/
def pad4 (n : Nat) : String :=
  if n < 10 then "000" ++ toString n
  else if n < 100 then "00" ++ toString n
  else if n < 1000 then "0" ++ toString n
  else toString n

/-- Zero-pad a natural number to six digits, as python `%06d`. -/
def pad6 (n : Nat) : String :=
  if n < 10 then "00000" ++ toString n
  else if n < 100 then "0000" ++ toString n
  else if n < 1000 then "000" ++ toString n
  else if n < 10000 then "00" ++ toString n
  else if n < 100000 then "0" ++ toString n
  else toString n

/-- Model of python `datetime.isoformat`: date, `T`, time, the
microsecond fraction only when nonzero, and the UTC offset only when
the value is aware. -/
def PyDateTime.isoformat (t : PyDateTime) : String :=
  pad4 t.year ++ "-" ++ pad2 t.month ++ "-" ++ pad2 t.day ++ "T" ++
  pad2 t.hour ++ ":" ++ pad2 t.minute ++ ":" ++ pad2 t.second ++
  (if t.microsecond = 0 then "" else "." ++ pad6 t.microsecond) ++
  (match t.tzOffsetMinutes with
   | none => ""
   | some off =>
     (if off < 0 then "-" else "+") ++
     pad2 (off.natAbs / 60) ++ ":" ++ pad2 (off.natAbs % 60))

/-- Character-list form of `str.replace("Z", "+00:00")`: every
occurrence of the character `Z` becomes the six characters `+00:00`. -/
def replaceZList : List Char → List Char
  | [] => []
  | c :: rest =>
    if c = 'Z' then '+' :: '0' :: '0' :: ':' :: '0' :: '0' :: replaceZList rest
    else c :: replaceZList rest

/-- Model of `date_string.replace("Z", "+00:00")`. -/
def replaceZ (s : String) : String := String.mk (replaceZList s.toList)

/-- Exceptions raised by `DataTranslator`: `KeyError` from
`_validate_required_fields` (carrying the missing field names),
`ValueError` for a status outside the enum, and `ValueError` from
`convert_iso_to_datetime` (carrying field name and offending value). -/
inductive TransError where
  | missingField (fields : List String)
  | invalidStatus (status : String)
  | invalidDate (field : String) (value : String)
deriving DecidableEq, Repr

/-- Client-schema record (a parsed JSON dict). Keys that the code reads
with a bare `[...]` lookup or probes with `in` are `Option` fields
(`none` = key absent); the five boolean flags are read with
`.get(flag, False)`, so an absent flag and a false flag are identical
and they are plain `Bool` fields. -/
structure ClientData where
  orderNo : Option Int := none
  summary : Option String := none
  creationDate : Option String := none
  lastUpdateDate : Option String := none
  deletedDate : Option String := none
  isDeleted : Bool := false
  isDone : Bool := false
  isCanceled : Bool := false
  isOnHold : Bool := false
  isPending : Bool := false
deriving DecidableEq, Repr

/-- CMMS-schema record (the dict built by `convert_client_to_cmms` and
consumed by `convert_cmms_to_client`). Required keys are `Option`
fields so that their absence is representable; `deleted` is read with
`.get("deleted", False)`. -/
structure CMMSDoc where
  number : Option Int := none
  title : Option String := none
  status : Option String := none
  description : Option String := none
  createdAt : Option PyDateTime := none
  updatedAt : Option PyDateTime := none
  deleted : Bool := false
  deletedAt : Option PyDateTime := none
deriving DecidableEq, Repr

/-- The `VALID_CMMS_STATUS` set of `DataTranslator`. -/
def VALID_CMMS_STATUS : List String :=
  ["pending", "in_progress", "completed", "on_hold", "cancelled", "deleted"]

/-- The `CLIENT_TO_CMMS_STATUS_MAP` priority list of `DataTranslator`. -/
def CLIENT_TO_CMMS_STATUS_MAP : List (String × String) :=
  [("isDeleted", "deleted"), ("isDone", "completed"), ("isCanceled", "cancelled"),
   ("isOnHold", "on_hold"), ("isPending", "pending")]

/-- Model of `client_data.get(flag, False)` for the five boolean flags. -/
def clientFlag (c : ClientData) (name : String) : Bool :=
  if name = "isDeleted" then c.isDeleted
  else if name = "isDone" then c.isDone
  else if name = "isCanceled" then c.isCanceled
  else if name = "isOnHold" then c.isOnHold
  else if name = "isPending" then c.isPending
  else false

/-- The loop body of `_determine_cmms_status`: walk the priority list and
return the status of the first true flag. -/
def determineLoop (c : ClientData) : List (String × String) → String
  | [] => "in_progress"
  | (flag, st) :: rest => if clientFlag c flag then st else determineLoop c rest

/-- `DataTranslator._determine_cmms_status`: first true flag in
`CLIENT_TO_CMMS_STATUS_MAP` order wins, default `in_progress`. -/
def determine_cmms_status (c : ClientData) : String :=
  determineLoop c CLIENT_TO_CMMS_STATUS_MAP

/-- The list built by `_validate_required_fields` for client data:
required fields, in order, that are absent from the input. -/
def missingClientFields (c : ClientData) : List String :=
  (if c.orderNo.isNone then ["orderNo"] else []) ++
  (if c.summary.isNone then ["summary"] else []) ++
  (if c.creationDate.isNone then ["creationDate"] else [])

/-- The list built by `_validate_required_fields` for CMMS data. -/
def missingCmmsFields (d : CMMSDoc) : List String :=
  (if d.number.isNone then ["number"] else []) ++
  (if d.title.isNone then ["title"] else []) ++
  (if d.status.isNone then ["status"] else []) ++
  (if d.createdAt.isNone then ["createdAt"] else []) ++
  (if d.updatedAt.isNone then ["updatedAt"] else [])

/-- `DataTranslator.convert_iso_to_datetime`: normalize `Z` to `+00:00`,
then parse; a parse failure becomes `ValueError` with the field name
and the original string. -/
def convert_iso_to_datetime (s : String) (field : String) : Except TransError PyDateTime :=
  match fromisoformat (replaceZ s) with
  | some d => .ok d
  | none => .error (.invalidDate field s)

/-- `DataTranslator.convert_client_to_cmms`: validate required fields,
resolve the status, parse `creationDate` and `lastUpdateDate` (falling
back to `creationDate`), build the CMMS dict, and attach `deletedAt`
only when `isDeleted` is true and `deletedDate` is truthy. -/
def convert_client_to_cmms (c : ClientData) : Except TransError CMMSDoc :=
  match c.orderNo, c.summary, c.creationDate with
  | some n, some s, some cd =>
    let status := determine_cmms_status c
    if status ∈ VALID_CMMS_STATUS then
      match convert_iso_to_datetime cd "creationDate" with
      | .error e => .error e
      | .ok createdAt =>
        match convert_iso_to_datetime (c.lastUpdateDate.getD cd) "lastUpdateDate/creationDate" with
        | .error e => .error e
        | .ok updatedAt =>
          let base : CMMSDoc :=
            { number := some n, title := some s, status := some status,
              description := some (s ++ " description"),
              createdAt := some createdAt, updatedAt := some updatedAt,
              deleted := c.isDeleted, deletedAt := none }
          if c.isDeleted then
            match c.deletedDate with
            | some dd =>
              if dd ≠ "" then
                match convert_iso_to_datetime dd "deletedDate" with
                | .error e => .error e
                | .ok delAt => .ok { base with deletedAt := some delAt }
              else .ok base
            | none => .ok base
          else .ok base
    else .error (.invalidStatus status)
  | _, _, _ => .error (.missingField (missingClientFields c))

/-- Model of the tz-defaulting in `convert_cmms_to_client`: a naive
datetime is stamped with the UTC offset before serialization. -/
def defaultUTC (t : PyDateTime) : PyDateTime :=
  if t.tzOffsetMinutes.isNone then { t with tzOffsetMinutes := some 0 } else t

/-- `DataTranslator.convert_cmms_to_client`: validate required fields,
reject a status outside `VALID_CMMS_STATUS`, serialize the timestamps
(naive ones treated as UTC), and derive the five boolean flags from the
status alone. -/
def convert_cmms_to_client (d : CMMSDoc) : Except TransError ClientData :=
  match d.number, d.title, d.status, d.createdAt, d.updatedAt with
  | some n, some t, some st, some ca, some ua =>
    if st ∈ VALID_CMMS_STATUS then
      .ok { orderNo := some n, summary := some t,
            creationDate := some (defaultUTC ca).isoformat,
            lastUpdateDate := some (defaultUTC ua).isoformat,
            deletedDate := d.deletedAt.map PyDateTime.isoformat,
            isDone := decide (st = "completed"),
            isCanceled := decide (st = "cancelled"),
            isOnHold := decide (st = "on_hold"),
            isPending := decide (st = "pending"),
            isDeleted := decide (st = "deleted") }
    else .error (.invalidStatus st)
  | _, _, _, _, _ => .error (.missingField (missingCmmsFields d))

/-- The round trip of the spec: convert a client record into the CMMS
shape and back. -/
def roundTrip (c : ClientData) : Except TransError ClientData :=
  (convert_client_to_cmms c).bind convert_cmms_to_client

/-- Spec-side helper: the record as if only the highest-priority true
flag (in the `isDeleted > isDone > isCanceled > isOnHold > isPending`
order) were set. -/
def highestFlagOnly (c : ClientData) : ClientData :=
  if c.isDeleted then
    { c with isDone := false, isCanceled := false, isOnHold := false, isPending := false }
  else if c.isDone then
    { c with isCanceled := false, isOnHold := false, isPending := false }
  else if c.isCanceled then
    { c with isOnHold := false, isPending := false }
  else if c.isOnHold then
    { c with isPending := false }
  else c

/-- Spec-side helper: number of true flags among the five. -/
def trueFlagCount (c : ClientData) : Nat :=
  c.isDeleted.toNat + c.isDone.toNat + c.isCanceled.toNat +
  c.isOnHold.toNat + c.isPending.toNat

/-- Spec-side helper: the two records carry identical flag vectors. -/
def sameFlags (a b : ClientData) : Prop :=
  a.isDeleted = b.isDeleted ∧ a.isDone = b.isDone ∧ a.isCanceled = b.isCanceled ∧
  a.isOnHold = b.isOnHold ∧ a.isPending = b.isPending

instance (a b : ClientData) : Decidable (sameFlags a b) := by
  unfold sameFlags; infer_instance

/-- Sample timestamp: 2025-01-02 03:04:05 UTC. -/
def dtEx : PyDateTime := ⟨2025, 1, 2, 3, 4, 5, 0, some 0⟩

/-- Sample client record with two simultaneous true flags. -/
def cMulti : ClientData :=
  { orderNo := some 1, summary := some "a",
    creationDate := some "2025-01-02T03:04:05Z", isDone := true, isPending := true }

/-- Sample client record with all five flags false. -/
def cNone : ClientData :=
  { orderNo := some 2, summary := some "b",
    creationDate := some "2025-01-02T03:04:05Z" }

/-- The CMMS record `convert_client_to_cmms` produces for `cMulti`. -/
def dMulti : CMMSDoc :=
  { number := some 1, title := some "a", status := some "completed",
    description := some "a description", createdAt := some dtEx,
    updatedAt := some dtEx, deleted := false, deletedAt := none }

/-- The client record `roundTrip` produces for `cMulti`. -/
def outMulti : ClientData :=
  { orderNo := some 1, summary := some "a",
    creationDate := some "2025-01-02T03:04:05+00:00",
    lastUpdateDate := some "2025-01-02T03:04:05+00:00",
    deletedDate := none, isDeleted := false, isDone := true,
    isCanceled := false, isOnHold := false, isPending := false }

/-- Sample CMMS record with status `completed`. -/
def dDone : CMMSDoc :=
  { number := some 3, title := some "t", status := some "completed",
    createdAt := some dtEx, updatedAt := some dtEx }

/-- Sample CMMS record with the non-enum status `archived`. -/
def dArchived : CMMSDoc :=
  { number := some 4, title := some "t", status := some "archived",
    createdAt := some dtEx, updatedAt := some dtEx }

/-- The client record `convert_cmms_to_client` produces for `dDone`. -/
def outDone : ClientData :=
  { orderNo := some 3, summary := some "t",
    creationDate := some "2025-01-02T03:04:05+00:00",
    lastUpdateDate := some "2025-01-02T03:04:05+00:00",
    deletedDate := none, isDeleted := false, isDone := true,
    isCanceled := false, isOnHold := false, isPending := false }

end CmmsErp

namespace Pipeline

/-- A document of the MongoDB workorders collection, restricted to the
join key, the sync-control fields and an opaque business payload.
`isSynced` is `Option Bool` because the key can be absent; `syncedAt`
and `updatedAt` carry abstract timestamps (`Nat`). -/
structure WorkOrder where
  number : Int
  payload : String
  isSynced : Option Bool
  syncedAt : Option Nat
  updatedAt : Option Nat
deriving DecidableEq, Repr

/-- An inbound record handed to `upsert_workorder` (the translator's
output dict): it has a `number`, a business payload, possibly its own
`updatedAt` and `isSynced` values, and never a `syncedAt` key. -/
structure WOInput where
  number : Int
  payload : String
  updatedAt : Option Nat := none
  isSynced : Option Bool := none
deriving DecidableEq, Repr

/-- Model of MongoDB `update_one`: apply `f` to the first document
matching `p`, leave everything else unchanged. -/
def updateFirst (p : WorkOrder → Bool) (f : WorkOrder → WorkOrder) :
    List WorkOrder → List WorkOrder
  | [] => []
  | d :: rest => if p d then f d :: rest else d :: updateFirst p f rest

/-- The filter `isSynced != true` of `read_unsynced_workorders`: matches
documents where the field is false or absent. -/
def unsyncedPred (d : WorkOrder) : Bool := decide (d.isSynced ≠ some true)

namespace CMMSAdapter

/-- `CMMSAdapter.upsert_workorder` (`cmms_adapter.py`): match by
`number`; `$set` the incoming document with `isSynced=False` and
`updatedAt=now` forced on top, `$unset` `syncedAt`; insert when no
document matches. -/
def upsert_workorder (store : List WorkOrder) (w : WOInput) (now : Nat) :
    List WorkOrder :=
  let doc : WorkOrder :=
    { number := w.number, payload := w.payload,
      isSynced := some false, updatedAt := some now, syncedAt := none }
  if store.any (fun d => decide (d.number = w.number)) then
    updateFirst (fun d => decide (d.number = w.number)) (fun _ => doc) store
  else store ++ [doc]

/-- `CMMSAdapter.read_unsynced_workorders` (`cmms_adapter.py`): find
documents with `isSynced != true` and sort ascending by `number`
(modelled by a stable sort, as MongoDB's sort on the query). -/
def read_unsynced_workorders (store : List WorkOrder) : List WorkOrder :=
  List.insertionSort (fun a b => a.number ≤ b.number) (store.filter unsyncedPred)

/-- `CMMSAdapter.mark_workorder_as_synced`: set `isSynced=True` and a
fresh `syncedAt` on the first document matching `number`; the returned
flag tells whether a document matched. -/
def mark_workorder_as_synced (store : List WorkOrder) (n : Int) (now : Nat) :
    Bool × List WorkOrder :=
  (store.any (fun d => decide (d.number = n)),
   updateFirst (fun d => decide (d.number = n))
     (fun d => { d with isSynced := some true, syncedAt := some now }) store)

end CMMSAdapter

namespace TracosAdapter

/-- `TracosAdapter.upsert_workorder` (`tracos_adapter.py`): match by
`number`; `$set` the incoming document with `isSynced=False` and
`updatedAt=now` forced on top; there is no `$unset`, so an existing
`syncedAt` value survives; insert when no document matches. -/
def upsert_workorder (store : List WorkOrder) (w : WOInput) (now : Nat) :
    List WorkOrder :=
  if store.any (fun d => decide (d.number = w.number)) then
    updateFirst (fun d => decide (d.number = w.number))
      (fun old =>
        { number := w.number, payload := w.payload,
          isSynced := some false, updatedAt := some now,
          syncedAt := old.syncedAt }) store
  else
    store ++ [{ number := w.number, payload := w.payload,
                isSynced := some false, updatedAt := some now, syncedAt := none }]

/-- `TracosAdapter.read_unsynced_workorders` (`tracos_adapter.py`): find
documents with `isSynced != true`; the cursor has no sort, so documents
come back in collection order. -/
def read_unsynced_workorders (store : List WorkOrder) : List WorkOrder :=
  store.filter unsyncedPred

/-- `TracosAdapter.mark_as_synced`: set `isSynced=True` and a fresh
`syncedAt` on the first document matching `number`. -/
def mark_as_synced (store : List WorkOrder) (n : Int) (now : Nat) :
    Bool × List WorkOrder :=
  (store.any (fun d => decide (d.number = n)),
   updateFirst (fun d => decide (d.number = n))
     (fun d => { d with isSynced := some true, syncedAt := some now }) store)

end TracosAdapter

/-- Events observable at the collaborator boundary during one outbound
record: a sink write of a named file reporting success or failure, and
an invocation of `mark_as_synced`. -/
inductive OutEv where
  | wroteFile (name : String) (ok : Bool)
  | markedSynced (n : Int)
deriving DecidableEq, Repr

/-- The outbound counters of `PipelineMetrics` (`main.py`). -/
structure OutMetrics where
  converted : Nat := 0
  saved : Nat := 0
  synced : Nat := 0
  errors : Nat := 0
deriving DecidableEq, Repr

/-- The inbound counters of `PipelineMetrics` (`main.py`). -/
structure InMetrics where
  filesValid : Nat := 0
  converted : Nat := 0
  saved : Nat := 0
  errors : Nat := 0
deriving DecidableEq, Repr

/-- `ClientAdapter.validate_client_data`: `orderNo`, `summary` and
`creationDate` must be present (and non-null). -/
def validate_client_data (c : CmmsErp.ClientData) : Bool :=
  c.orderNo.isSome && c.summary.isSome && c.creationDate.isSome

/-- `IntegrationPipeline._process_single_outbound_workorder` (`main.py`):
translate (an exception is caught and counted), write the file
`workorder_{number}.json` (outcome `writeOk` of the sink collaborator),
and only on a successful write invoke `mark_as_synced`. Returns the
per-record success flag, the store, the collaborator events and the
updated metrics. The translator collaborator is passed as a function. -/
def process_single_outbound_workorder
    (translate : WorkOrder → Except CmmsErp.TransError String)
    (writeOk : Bool) (store : List WorkOrder) (w : WorkOrder) (now : Nat)
    (m : OutMetrics) : Bool × List WorkOrder × List OutEv × OutMetrics :=
  match translate w with
  | .error _ => (false, store, [], { m with errors := m.errors + 1 })
  | .ok _content =>
    let m1 := { m with converted := m.converted + 1 }
    let fname := "workorder_" ++ toString w.number ++ ".json"
    if writeOk then
      let r := TracosAdapter.mark_as_synced store w.number now
      (r.1, r.2, [.wroteFile fname true, .markedSynced w.number],
       if r.1 then { m1 with saved := m1.saved + 1, synced := m1.synced + 1 }
       else { m1 with saved := m1.saved + 1 })
    else (false, store, [.wroteFile fname false], m1)

/-- The per-workorder loop of `IntegrationPipeline.run_outbound_flow`:
process each candidate in order, threading store, events and metrics;
the per-record boolean result is ignored by the loop. `writeOkF` gives
each record's sink outcome. -/
def run_outbound_flow (translate : WorkOrder → Except CmmsErp.TransError String)
    (writeOkF : WorkOrder → Bool) (now : Nat) :
    List WorkOrder → List WorkOrder → List OutEv → OutMetrics →
    List WorkOrder × List OutEv × OutMetrics
  | [], store, evs, m => (store, evs, m)
  | w :: rest, store, evs, m =>
    let r := process_single_outbound_workorder translate (writeOkF w) store w now m
    run_outbound_flow translate writeOkF now rest r.2.1 (evs ++ r.2.2.1) r.2.2.2

/-- `IntegrationPipeline._process_single_inbound_file` (`main.py`):
validate (invalid data is skipped with a warning), translate (an
exception is caught and counted), then upsert into the store;
`upsertOk` is the adapter's boolean outcome (it catches store faults
itself and returns false). -/
def process_single_inbound_file
    (translate : CmmsErp.ClientData → Except CmmsErp.TransError WOInput)
    (upsertOk : Bool) (store : List WorkOrder) (c : CmmsErp.ClientData)
    (now : Nat) (m : InMetrics) : Bool × List WorkOrder × InMetrics :=
  if validate_client_data c = false then (false, store, m)
  else
    let m1 := { m with filesValid := m.filesValid + 1 }
    match translate c with
    | .error _ => (false, store, { m1 with errors := m1.errors + 1 })
    | .ok w =>
      let m2 := { m1 with converted := m1.converted + 1 }
      if upsertOk then
        (true, TracosAdapter.upsert_workorder store w now,
         { m2 with saved := m2.saved + 1 })
      else (false, store, m2)

/-- The per-file loop of `IntegrationPipeline.run_inbound_flow`: process
each candidate record in order, threading store and metrics; each
element carries its store-adapter outcome. -/
def run_inbound_flow (translate : CmmsErp.ClientData → Except CmmsErp.TransError WOInput)
    (now : Nat) :
    List (CmmsErp.ClientData × Bool) → List WorkOrder → InMetrics →
    List WorkOrder × InMetrics
  | [], store, m => (store, m)
  | (c, uok) :: rest, store, m =>
    let r := process_single_inbound_file translate uok store c now m
    run_inbound_flow translate now rest r.2.1 r.2.2

/-- Whether an event is a sink write. -/
def OutEv.isWrite : OutEv → Bool
  | .wroteFile _ _ => true
  | .markedSynced _ => false

instance : IsTotal WorkOrder (fun a b => a.number ≤ b.number) :=
  ⟨fun a b => le_total a.number b.number⟩

instance : IsTrans WorkOrder (fun a b => a.number ≤ b.number) :=
  ⟨fun _ _ _ h1 h2 => le_trans h1 h2⟩

/-- Sample store with one synced document, for the upsert theorems. -/
def storeC3 : List WorkOrder :=
  [{ number := 1, payload := "p", isSynced := some true,
     syncedAt := some 5, updatedAt := some 0 }]

/-- Sample inbound record hitting `storeC3`'s document. -/
def wC3 : WOInput := { number := 1, payload := "q" }

/-- Sample store whose unsynced documents are out of `number` order. -/
def storeEx : List WorkOrder :=
  [{ number := 2, payload := "b", isSynced := none,
     syncedAt := none, updatedAt := none },
   { number := 1, payload := "a", isSynced := some false,
     syncedAt := none, updatedAt := none },
   { number := 3, payload := "c", isSynced := some true,
     syncedAt := some 4, updatedAt := none }]

/-- Sample workorder processed by the outbound witness. -/
def wEx : WorkOrder :=
  { number := 1, payload := "a", isSynced := some false,
    syncedAt := none, updatedAt := none }

/-- Sample translator collaborator that always succeeds. -/
def transOkEx : WorkOrder → Except CmmsErp.TransError String :=
  fun w => .ok w.payload

/-- Sample translator collaborator that always raises. -/
def transFailEx : WorkOrder → Except CmmsErp.TransError String :=
  fun _ => .error (.missingField ["title"])

/-- Sample inbound translator collaborator that always succeeds. -/
def inTransOkEx : CmmsErp.ClientData → Except CmmsErp.TransError WOInput :=
  fun _ => .ok { number := 9, payload := "x" }

/-- Sample inbound translator collaborator that always raises. -/
def inTransFailEx : CmmsErp.ClientData → Except CmmsErp.TransError WOInput :=
  fun _ => .error (.missingField ["orderNo"])

end Pipeline

namespace CmmsErp

theorem determine_cmms_status_mem (c : ClientData) :
    determine_cmms_status c ∈ VALID_CMMS_STATUS := by
  rcases c with ⟨o, s, cd, lu, dd, b1, b2, b3, b4, b5⟩
  cases b1 <;> cases b2 <;> cases b3 <;> cases b4 <;> cases b5 <;>
    simp [determine_cmms_status, determineLoop, clientFlag,
      CLIENT_TO_CMMS_STATUS_MAP, VALID_CMMS_STATUS]

theorem convert_iso_to_datetime_error (s f : String) (e : TransError)
    (h : convert_iso_to_datetime s f = .error e) : e = .invalidDate f s := by
  unfold convert_iso_to_datetime at h
  split at h <;> simp_all

theorem convert_client_to_cmms_missing (c : ClientData)
    (h : c.orderNo.isNone ∨ c.summary.isNone ∨ c.creationDate.isNone) :
    convert_client_to_cmms c = .error (.missingField (missingClientFields c)) := by
  rcases hn : c.orderNo with _ | n <;> rcases hs : c.summary with _ | s <;>
    rcases hc : c.creationDate with _ | cd <;>
    simp_all [convert_client_to_cmms]

theorem convert_client_to_cmms_result (c : ClientData) (n : Int) (s cd : String)
    (hn : c.orderNo = some n) (hs : c.summary = some s) (hc : c.creationDate = some cd) :
    (∃ d, convert_client_to_cmms c = .ok d ∧ d.number = some n ∧ d.title = some s ∧
       d.status = some (determine_cmms_status c) ∧ d.deleted = c.isDeleted) ∨
    (∃ f v, convert_client_to_cmms c = .error (.invalidDate f v)) := by
  have hv := determine_cmms_status_mem c
  rcases h1 : convert_iso_to_datetime cd "creationDate" with e | ca
  · have he := convert_iso_to_datetime_error _ _ _ h1
    exact Or.inr ⟨"creationDate", cd,
      by simp [convert_client_to_cmms, hn, hs, hc, hv, h1, he]⟩
  rcases h2 : convert_iso_to_datetime (c.lastUpdateDate.getD cd)
      "lastUpdateDate/creationDate" with e | ua
  · have he := convert_iso_to_datetime_error _ _ _ h2
    exact Or.inr ⟨"lastUpdateDate/creationDate", c.lastUpdateDate.getD cd,
      by simp [convert_client_to_cmms, hn, hs, hc, hv, h1, h2, he]⟩
  cases hb : c.isDeleted
  · exact Or.inl ⟨⟨some n, some s, some (determine_cmms_status c),
      some (s ++ " description"), some ca, some ua, false, none⟩,
      by simp [convert_client_to_cmms, hn, hs, hc, hv, h1, h2, hb], rfl, rfl, rfl, rfl⟩
  · rcases hd : c.deletedDate with _ | dd
    · exact Or.inl ⟨⟨some n, some s, some (determine_cmms_status c),
        some (s ++ " description"), some ca, some ua, true, none⟩,
        by simp [convert_client_to_cmms, hn, hs, hc, hv, h1, h2, hb, hd], rfl, rfl, rfl, rfl⟩
    · by_cases hdd : dd = ""
      · exact Or.inl ⟨⟨some n, some s, some (determine_cmms_status c),
          some (s ++ " description"), some ca, some ua, true, none⟩,
          by simp [convert_client_to_cmms, hn, hs, hc, hv, h1, h2, hb, hd, hdd],
          rfl, rfl, rfl, rfl⟩
      · rcases h3 : convert_iso_to_datetime dd "deletedDate" with e | da
        · have he := convert_iso_to_datetime_error _ _ _ h3
          exact Or.inr ⟨"deletedDate", dd,
            by simp [convert_client_to_cmms, hn, hs, hc, hv, h1, h2, hb, hd, hdd, h3, he]⟩
        · exact Or.inl ⟨⟨some n, some s, some (determine_cmms_status c),
            some (s ++ " description"), some ca, some ua, true, some da⟩,
            by simp [convert_client_to_cmms, hn, hs, hc, hv, h1, h2, hb, hd, hdd, h3],
            rfl, rfl, rfl, rfl⟩

theorem convert_client_to_cmms_ok_inv (c : ClientData) (d : CMMSDoc)
    (h : convert_client_to_cmms c = .ok d) :
    d.number = c.orderNo ∧ d.title = c.summary ∧
    d.status = some (determine_cmms_status c) ∧ d.deleted = c.isDeleted := by
  rcases hn : c.orderNo with _ | n
  · rw [convert_client_to_cmms_missing c (Or.inl (by simp [hn]))] at h; simp at h
  rcases hs : c.summary with _ | s
  · rw [convert_client_to_cmms_missing c (Or.inr (Or.inl (by simp [hs])))] at h; simp at h
  rcases hc : c.creationDate with _ | cd
  · rw [convert_client_to_cmms_missing c (Or.inr (Or.inr (by simp [hc])))] at h; simp at h
  rcases convert_client_to_cmms_result c n s cd hn hs hc with
    ⟨d2, hok, f1, f2, f3, f4⟩ | ⟨f, v, herr⟩
  · rw [hok] at h
    injection h with h
    subst h
    exact ⟨f1, f2, f3, f4⟩
  · rw [herr] at h; simp at h

theorem convert_cmms_to_client_missing (d : CMMSDoc)
    (h : d.number.isNone ∨ d.title.isNone ∨ d.status.isNone ∨
         d.createdAt.isNone ∨ d.updatedAt.isNone) :
    convert_cmms_to_client d = .error (.missingField (missingCmmsFields d)) := by
  rcases hn : d.number with _ | n <;> rcases ht : d.title with _ | t <;>
    rcases hst : d.status with _ | st <;> rcases hca : d.createdAt with _ | ca <;>
    rcases hua : d.updatedAt with _ | ua <;>
    simp_all [convert_cmms_to_client]

theorem convert_cmms_to_client_result (d : CMMSDoc) (n : Int) (t st : String)
    (ca ua : PyDateTime) (hn : d.number = some n) (ht : d.title = some t)
    (hst : d.status = some st) (hca : d.createdAt = some ca)
    (hua : d.updatedAt = some ua) :
    (st ∈ VALID_CMMS_STATUS ∧ convert_cmms_to_client d = .ok
        { orderNo := some n, summary := some t,
          creationDate := some (defaultUTC ca).isoformat,
          lastUpdateDate := some (defaultUTC ua).isoformat,
          deletedDate := d.deletedAt.map PyDateTime.isoformat,
          isDone := decide (st = "completed"), isCanceled := decide (st = "cancelled"),
          isOnHold := decide (st = "on_hold"), isPending := decide (st = "pending"),
          isDeleted := decide (st = "deleted") }) ∨
    (st ∉ VALID_CMMS_STATUS ∧ convert_cmms_to_client d = .error (.invalidStatus st)) := by
  by_cases hv : st ∈ VALID_CMMS_STATUS
  · exact Or.inl ⟨hv, by simp [convert_cmms_to_client, hn, ht, hst, hca, hua, hv]⟩
  · exact Or.inr ⟨hv, by simp [convert_cmms_to_client, hn, ht, hst, hca, hua, hv]⟩

theorem convert_cmms_to_client_ok_inv (d : CMMSDoc) (out : ClientData)
    (h : convert_cmms_to_client d = .ok out) :
    ∃ st, d.status = some st ∧ st ∈ VALID_CMMS_STATUS ∧
      out.orderNo = d.number ∧ out.summary = d.title ∧
      out.isDeleted = decide (st = "deleted") ∧ out.isDone = decide (st = "completed") ∧
      out.isCanceled = decide (st = "cancelled") ∧
      out.isOnHold = decide (st = "on_hold") ∧ out.isPending = decide (st = "pending") := by
  rcases hn : d.number with _ | n
  · rw [convert_cmms_to_client_missing d (Or.inl (by simp [hn]))] at h; simp at h
  rcases ht : d.title with _ | t
  · rw [convert_cmms_to_client_missing d (Or.inr (Or.inl (by simp [ht])))] at h
    simp at h
  rcases hst : d.status with _ | st
  · rw [convert_cmms_to_client_missing d (Or.inr (Or.inr (Or.inl (by simp [hst]))))] at h
    simp at h
  rcases hca : d.createdAt with _ | ca
  · rw [convert_cmms_to_client_missing d
      (Or.inr (Or.inr (Or.inr (Or.inl (by simp [hca])))))] at h
    simp at h
  rcases hua : d.updatedAt with _ | ua
  · rw [convert_cmms_to_client_missing d
      (Or.inr (Or.inr (Or.inr (Or.inr (by simp [hua])))))] at h
    simp at h
  rcases convert_cmms_to_client_result d n t st ca ua hn ht hst hca hua with
    ⟨hv, hok⟩ | ⟨_, herr⟩
  · rw [hok] at h
    injection h with h
    subst h
    exact ⟨st, rfl, hv, rfl, rfl, rfl, rfl, rfl, rfl, rfl⟩
  · rw [herr] at h; simp at h

end CmmsErp

namespace CmmsErp

theorem replaceZList_append (l1 l2 : List Char) :
    replaceZList (l1 ++ l2) = replaceZList l1 ++ replaceZList l2 := by
  induction l1 with
  | nil => rfl
  | cons c rest ih => by_cases hc : c = 'Z' <;> simp [replaceZList, hc, ih]

theorem replaceZList_no_z (l : List Char) (h : 'Z' ∉ l) : replaceZList l = l := by
  induction l with
  | nil => rfl
  | cons c rest ih =>
    rw [List.mem_cons, not_or] at h
    simp only [replaceZList]
    rw [if_neg (fun hc => h.1 hc.symm), ih h.2]

theorem replaceZ_appendZ (s : String) (h : 'Z' ∉ s.toList) :
    replaceZ (s ++ "Z") = replaceZ (s ++ "+00:00") := by
  show String.mk (replaceZList (s.data ++ "Z".data)) =
    String.mk (replaceZList (s.data ++ "+00:00".data))
  rw [replaceZList_append, replaceZList_append, replaceZList_no_z s.data h]
  rfl

/-- C1: the status produced by `convert_client_to_cmms` is resolved from
the boolean flags in the fixed priority order isDeleted, isDone,
isCanceled, isOnHold, isPending (first true flag wins, so under
simultaneous true flags the result is as if only the highest-priority
one were true), defaulting to in_progress when no flag is true. -/
theorem status_priority_resolution :
    (∀ c : ClientData, determine_cmms_status c =
       (if c.isDeleted then "deleted" else if c.isDone then "completed"
        else if c.isCanceled then "cancelled" else if c.isOnHold then "on_hold"
        else if c.isPending then "pending" else "in_progress")) ∧
    (∀ c : ClientData,
       determine_cmms_status c = determine_cmms_status (highestFlagOnly c)) ∧
    (∀ (c : ClientData) (d : CMMSDoc), convert_client_to_cmms c = .ok d →
       d.status = some (determine_cmms_status c)) := by
  refine ⟨?_, ?_, ?_⟩
  · intro c
    rcases c with ⟨o, s, cd, lu, dd, b1, b2, b3, b4, b5⟩
    cases b1 <;> cases b2 <;> cases b3 <;> cases b4 <;> cases b5 <;>
      simp [determine_cmms_status, determineLoop, clientFlag, CLIENT_TO_CMMS_STATUS_MAP]
  · intro c
    rcases c with ⟨o, s, cd, lu, dd, b1, b2, b3, b4, b5⟩
    cases b1 <;> cases b2 <;> cases b3 <;> cases b4 <;> cases b5 <;>
      simp [determine_cmms_status, determineLoop, clientFlag,
        CLIENT_TO_CMMS_STATUS_MAP, highestFlagOnly]
  · intro c d h
    exact (convert_client_to_cmms_ok_inv c d h).2.2.1

theorem status_priority_resolution_witness :
    dMulti.status = some (determine_cmms_status cMulti) ∧
    determine_cmms_status cMulti = "completed" :=
  ⟨status_priority_resolution.2.2 cMulti dMulti rfl, rfl⟩

/-- C5: `convert_client_to_cmms` raises the missing-field error exactly
when one of orderNo, summary, creationDate is absent, and
`convert_cmms_to_client` exactly when one of number, title, status,
createdAt, updatedAt is absent; as the result is an error, no output
record is produced in either case. -/
theorem missing_field_error_iff :
    (∀ c : ClientData,
       (∃ fs, convert_client_to_cmms c = .error (.missingField fs)) ↔
       (c.orderNo.isNone ∨ c.summary.isNone ∨ c.creationDate.isNone)) ∧
    (∀ d : CMMSDoc,
       (∃ fs, convert_cmms_to_client d = .error (.missingField fs)) ↔
       (d.number.isNone ∨ d.title.isNone ∨ d.status.isNone ∨
        d.createdAt.isNone ∨ d.updatedAt.isNone)) := by
  constructor
  · intro c
    constructor
    · rintro ⟨fs, hfs⟩
      by_contra hno
      push_neg at hno
      obtain ⟨h1, h2, h3⟩ := hno
      rcases hn : c.orderNo with _ | n
      · exact h1 (by simp [hn])
      rcases hs : c.summary with _ | s
      · exact h2 (by simp [hs])
      rcases hc : c.creationDate with _ | cd
      · exact h3 (by simp [hc])
      rcases convert_client_to_cmms_result c n s cd hn hs hc with
        ⟨d, hok, _⟩ | ⟨f, v, herr⟩
      · rw [hok] at hfs; simp at hfs
      · rw [herr] at hfs; simp at hfs
    · intro h
      exact ⟨_, convert_client_to_cmms_missing c h⟩
  · intro d
    constructor
    · rintro ⟨fs, hfs⟩
      by_contra hno
      push_neg at hno
      obtain ⟨h1, h2, h3, h4, h5⟩ := hno
      rcases hn : d.number with _ | n
      · exact h1 (by simp [hn])
      rcases ht : d.title with _ | t
      · exact h2 (by simp [ht])
      rcases hst : d.status with _ | st
      · exact h3 (by simp [hst])
      rcases hca : d.createdAt with _ | ca
      · exact h4 (by simp [hca])
      rcases hua : d.updatedAt with _ | ua
      · exact h5 (by simp [hua])
      rcases convert_cmms_to_client_result d n t st ca ua hn ht hst hca hua with
        ⟨_, hok⟩ | ⟨_, herr⟩
      · rw [hok] at hfs; simp at hfs
      · rw [herr] at hfs; simp at hfs
    · intro h
      exact ⟨_, convert_cmms_to_client_missing d h⟩

/-- C6: `convert_cmms_to_client` rejects a status outside
`VALID_CMMS_STATUS` with the invalid-status error rather than producing
an output (given the required fields, which are validated first, are
present), and `convert_client_to_cmms` never emits a status outside the
enum. -/
theorem invalid_status_policy :
    (∀ (d : CMMSDoc) (n : Int) (t st : String) (ca ua : PyDateTime),
       d.number = some n → d.title = some t → d.status = some st →
       d.createdAt = some ca → d.updatedAt = some ua →
       st ∉ VALID_CMMS_STATUS →
       convert_cmms_to_client d = .error (.invalidStatus st)) ∧
    (∀ (c : ClientData) (d : CMMSDoc), convert_client_to_cmms c = .ok d →
       ∃ st, d.status = some st ∧ st ∈ VALID_CMMS_STATUS) := by
  constructor
  · intro d n t st ca ua hn ht hst hca hua hnv
    rcases convert_cmms_to_client_result d n t st ca ua hn ht hst hca hua with
      ⟨hv, _⟩ | ⟨_, herr⟩
    · exact absurd hv hnv
    · exact herr
  · intro c d h
    exact ⟨determine_cmms_status c, (convert_client_to_cmms_ok_inv c d h).2.2.1,
      determine_cmms_status_mem c⟩

theorem invalid_status_policy_witness :
    convert_cmms_to_client dArchived = .error (.invalidStatus "archived") ∧
    (∃ st, dMulti.status = some st ∧ st ∈ VALID_CMMS_STATUS) :=
  ⟨invalid_status_policy.1 dArchived 4 "t" "archived" dtEx dtEx rfl rfl rfl rfl rfl
      (by decide),
   invalid_status_policy.2 cMulti dMulti rfl⟩

/-- C9: a timestamp with a literal Z suffix and the corresponding string
with an explicit +00:00 offset parse identically under
`convert_iso_to_datetime`, and every string the normalized parser
cannot handle yields the invalid-date error carrying the field name and
the original string. -/
theorem date_parsing_policy :
    (∀ (s field : String), 'Z' ∉ s.toList → ∀ t : PyDateTime,
       convert_iso_to_datetime (s ++ "Z") field = .ok t ↔
       convert_iso_to_datetime (s ++ "+00:00") field = .ok t) ∧
    (∀ (s field : String), fromisoformat (replaceZ s) = none →
       convert_iso_to_datetime s field = .error (.invalidDate field s)) := by
  constructor
  · intro s field h t
    unfold convert_iso_to_datetime
    rw [replaceZ_appendZ s h]
    split <;> simp
  · intro s field h
    unfold convert_iso_to_datetime
    rw [h]

theorem date_parsing_policy_witness :
    (convert_iso_to_datetime ("2025-01-02T03:04:05" ++ "Z") "creationDate" =
        .ok dtEx ↔
     convert_iso_to_datetime ("2025-01-02T03:04:05" ++ "+00:00") "creationDate" =
        .ok dtEx) ∧
    convert_iso_to_datetime "bogus" "creationDate" =
      .error (.invalidDate "creationDate" "bogus") :=
  ⟨date_parsing_policy.1 "2025-01-02T03:04:05" "creationDate" (by decide) dtEx,
   date_parsing_policy.2 "bogus" "creationDate" rfl⟩

end CmmsErp

namespace CmmsErp

/-- C10: the five flags emitted by `convert_cmms_to_client` are mutually
exclusive (at most one true), all five are false exactly when the
status is in_progress, and the emitted isDeleted is determined by the
status being deleted alone — the record's separate `deleted` field does
not influence the conversion at all. -/
theorem output_flags_exclusive (d : CMMSDoc) (out : ClientData)
    (h : convert_cmms_to_client d = .ok out) :
    out.isDone.toNat + out.isCanceled.toNat + out.isOnHold.toNat +
        out.isPending.toNat + out.isDeleted.toNat ≤ 1 ∧
    ((out.isDone = false ∧ out.isCanceled = false ∧ out.isOnHold = false ∧
        out.isPending = false ∧ out.isDeleted = false) ↔
      d.status = some "in_progress") ∧
    out.isDeleted = decide (d.status = some "deleted") ∧
    (∀ b, convert_cmms_to_client { d with deleted := b } =
       convert_cmms_to_client d) := by
  obtain ⟨st, hst, hv, o1, o2, g5, g1, g2, g3, g4⟩ :=
    convert_cmms_to_client_ok_inv d out h
  refine ⟨?_, ?_, ?_, ?_⟩
  · rw [g1, g2, g3, g4, g5]
    simp only [VALID_CMMS_STATUS, List.mem_cons, List.not_mem_nil, or_false] at hv
    rcases hv with rfl | rfl | rfl | rfl | rfl | rfl <;> decide
  · rw [g1, g2, g3, g4, g5, hst]
    simp only [VALID_CMMS_STATUS, List.mem_cons, List.not_mem_nil, or_false] at hv
    rcases hv with rfl | rfl | rfl | rfl | rfl | rfl <;> decide
  · rw [g5, hst]
    simp only [VALID_CMMS_STATUS, List.mem_cons, List.not_mem_nil, or_false] at hv
    rcases hv with rfl | rfl | rfl | rfl | rfl | rfl <;> decide
  · intro b
    rcases d with ⟨dn, dt, dst, dde, dca, dua, ddel, dda⟩
    rfl

theorem output_flags_exclusive_witness :
    outDone.isDone.toNat + outDone.isCanceled.toNat + outDone.isOnHold.toNat +
        outDone.isPending.toNat + outDone.isDeleted.toNat ≤ 1 ∧
    ((outDone.isDone = false ∧ outDone.isCanceled = false ∧
        outDone.isOnHold = false ∧ outDone.isPending = false ∧
        outDone.isDeleted = false) ↔ dDone.status = some "in_progress") ∧
    outDone.isDeleted = decide (dDone.status = some "deleted") ∧
    (∀ b, convert_cmms_to_client { dDone with deleted := b } =
       convert_cmms_to_client dDone) :=
  output_flags_exclusive dDone outDone rfl

/-- C2 as stated is false: the round trip reproduces the flags only when
at most one flag is true. For `cMulti` (isDone and isPending both true)
the output isPending is false although the claim says every flag is
reproduced, and for `cNone` (all flags false) the output isPending is
false although the claim says the all-false case canonicalizes to
isPending true. -/
theorem roundtrip_claim_counterexample :
    (cMulti.isPending = true ∧
     (roundTrip cMulti).map ClientData.isPending = .ok false) ∧
    (trueFlagCount cNone = 0 ∧
     (roundTrip cNone).map ClientData.isPending = .ok false ∧
     (roundTrip cNone).map trueFlagCount = .ok 0) :=
  ⟨⟨rfl, rfl⟩, rfl, rfl, rfl⟩

/-- C2 amended: whenever the round trip through `convert_client_to_cmms`
and `convert_cmms_to_client` succeeds it reproduces orderNo and summary,
and its output flags are those of the input with every flag below the
highest-priority true one cleared; consequently the flags are
reproduced exactly when at most one input flag is true, and the
all-false input comes back all-false (status in_progress), not as
isPending true. -/
theorem roundtrip_amended (c out : ClientData) (h : roundTrip c = .ok out) :
    out.orderNo = c.orderNo ∧ out.summary = c.summary ∧
    sameFlags out (highestFlagOnly c) ∧
    (trueFlagCount c ≤ 1 → sameFlags out c) := by
  rcases hm : convert_client_to_cmms c with e | d
  · rw [roundTrip, hm] at h
    simp [Except.bind] at h
  · rw [roundTrip, hm] at h
    simp only [Except.bind] at h
    obtain ⟨q1, q2, q3, q4⟩ := convert_client_to_cmms_ok_inv c d hm
    obtain ⟨st, hst, hv, o1, o2, g5, g1, g2, g3, g4⟩ :=
      convert_cmms_to_client_ok_inv d out h
    have hste : st = determine_cmms_status c := by
      rw [q3] at hst
      exact (Option.some_inj.mp hst).symm
    subst hste
    refine ⟨by rw [o1, q1], by rw [o2, q2], ?_⟩
    have hflags : sameFlags out (highestFlagOnly c) ∧
        (trueFlagCount c ≤ 1 → sameFlags out c) := by
      unfold sameFlags trueFlagCount
      rw [g1, g2, g3, g4, g5]
      rcases c with ⟨o, s, cd, lu, dd, b1, b2, b3, b4, b5⟩
      cases b1 <;> cases b2 <;> cases b3 <;> cases b4 <;> cases b5 <;>
        simp [determine_cmms_status, determineLoop, clientFlag,
          CLIENT_TO_CMMS_STATUS_MAP, highestFlagOnly]
    exact hflags

theorem roundtrip_amended_witness :
    outMulti.orderNo = cMulti.orderNo ∧ outMulti.summary = cMulti.summary ∧
    sameFlags outMulti (highestFlagOnly cMulti) ∧
    (trueFlagCount cMulti ≤ 1 → sameFlags outMulti cMulti) :=
  roundtrip_amended cMulti outMulti rfl

end CmmsErp

namespace Pipeline

theorem updateFirst_mem (p : WorkOrder → Bool) (f : WorkOrder → WorkOrder)
    (l : List WorkOrder) (d : WorkOrder) (h : d ∈ updateFirst p f l) :
    d ∈ l ∨ ∃ x ∈ l, p x = true ∧ d = f x := by
  induction l with
  | nil => simp [updateFirst] at h
  | cons a rest ih =>
    by_cases hp : p a = true
    · rw [updateFirst, if_pos hp] at h
      rcases List.mem_cons.mp h with h | h
      · exact Or.inr ⟨a, List.mem_cons_self a rest, hp, h⟩
      · exact Or.inl (List.mem_cons_of_mem a h)
    · rw [updateFirst, if_neg hp] at h
      rcases List.mem_cons.mp h with h | h
      · exact Or.inl (by simp [h])
      · rcases ih h with h2 | ⟨x, hx, hpx, hd⟩
        · exact Or.inl (List.mem_cons_of_mem a h2)
        · exact Or.inr ⟨x, List.mem_cons_of_mem a hx, hpx, hd⟩

theorem updateFirst_exists (p : WorkOrder → Bool) (f : WorkOrder → WorkOrder)
    (l : List WorkOrder) (h : l.any p = true) :
    ∃ x ∈ l, p x = true ∧ f x ∈ updateFirst p f l := by
  induction l with
  | nil => simp at h
  | cons a rest ih =>
    by_cases hp : p a = true
    · exact ⟨a, List.mem_cons_self a rest, hp, by simp [updateFirst, hp]⟩
    · have h2 : rest.any p = true := by
        rcases List.any_eq_true.mp h with ⟨x, hx, hpx⟩
        rcases List.mem_cons.mp hx with rfl | hx2
        · exact absurd hpx hp
        · exact List.any_eq_true.mpr ⟨x, hx2, hpx⟩
      rcases ih h2 with ⟨x, hx, hpx, hm⟩
      exact ⟨x, List.mem_cons_of_mem a hx, hpx, by simp [updateFirst, hp, hm]⟩

/-- C3 corrected: both upserts force isSynced false and a fresh
updatedAt on the touched document regardless of the incoming values,
but only the CMMSAdapter variant unsets syncedAt and thereby preserves
the invariant that an unsynced document has no syncedAt; the
TracosAdapter variant keeps an existing syncedAt value. -/
theorem upsert_sync_control (store : List WorkOrder) (w : WOInput) (now : Nat)
    (hinv : ∀ d ∈ store, d.isSynced = some false → d.syncedAt = none) :
    (∃ d ∈ CMMSAdapter.upsert_workorder store w now,
       d.number = w.number ∧ d.isSynced = some false ∧
       d.updatedAt = some now ∧ d.syncedAt = none) ∧
    (∀ d ∈ CMMSAdapter.upsert_workorder store w now,
       d.isSynced = some false → d.syncedAt = none) ∧
    (∃ d ∈ TracosAdapter.upsert_workorder store w now,
       d.number = w.number ∧ d.isSynced = some false ∧ d.updatedAt = some now) := by
  refine ⟨?_, ?_, ?_⟩
  · rw [CMMSAdapter.upsert_workorder]
    by_cases ha : store.any (fun d => decide (d.number = w.number)) = true
    · rw [if_pos ha]
      rcases updateFirst_exists _ _ store ha with ⟨x, hx, hpx, hm⟩
      exact ⟨_, hm, rfl, rfl, rfl, rfl⟩
    · rw [if_neg ha]
      refine ⟨{ number := w.number, payload := w.payload, isSynced := some false,
                syncedAt := none, updatedAt := some now }, ?_, rfl, rfl, rfl, rfl⟩
      simp
  · rw [CMMSAdapter.upsert_workorder]
    by_cases ha : store.any (fun d => decide (d.number = w.number)) = true
    · rw [if_pos ha]
      intro d hd hs
      rcases updateFirst_mem _ _ store d hd with hmem | ⟨x, hx, hpx, rfl⟩
      · exact hinv d hmem hs
      · rfl
    · rw [if_neg ha]
      intro d hd hs
      rcases List.mem_append.mp hd with hmem | hmem
      · exact hinv d hmem hs
      · rcases List.mem_singleton.mp hmem with rfl
        rfl
  · rw [TracosAdapter.upsert_workorder]
    by_cases ha : store.any (fun d => decide (d.number = w.number)) = true
    · rw [if_pos ha]
      rcases updateFirst_exists _ _ store ha with ⟨x, hx, hpx, hm⟩
      exact ⟨_, hm, rfl, rfl, rfl⟩
    · rw [if_neg ha]
      refine ⟨{ number := w.number, payload := w.payload, isSynced := some false,
                syncedAt := none, updatedAt := some now }, ?_, rfl, rfl, rfl⟩
      simp

theorem upsert_sync_control_witness :
    (∃ d ∈ CMMSAdapter.upsert_workorder storeC3 wC3 7,
       d.number = wC3.number ∧ d.isSynced = some false ∧
       d.updatedAt = some 7 ∧ d.syncedAt = none) ∧
    (∀ d ∈ CMMSAdapter.upsert_workorder storeC3 wC3 7,
       d.isSynced = some false → d.syncedAt = none) ∧
    (∃ d ∈ TracosAdapter.upsert_workorder storeC3 wC3 7,
       d.number = wC3.number ∧ d.isSynced = some false ∧ d.updatedAt = some 7) :=
  upsert_sync_control storeC3 wC3 7 (by decide)

/-- C3 as stated is false for the TracosAdapter upsert it cites: on a
store whose document number 1 is synced with syncedAt present, the
upsert forces isSynced false but leaves syncedAt in place, so the
resulting state violates the invariant that isSynced false implies
syncedAt absent. -/
theorem upsert_syncedAt_counterexample :
    TracosAdapter.upsert_workorder storeC3 wC3 7 =
      [{ number := 1, payload := "q", isSynced := some false,
         syncedAt := some 5, updatedAt := some 7 }] := by decide

/-- C7 corrected: both read operations return exactly the documents
whose isSynced is not true, and the CMMSAdapter variant returns them
sorted ascending by number; the TracosAdapter variant used by the
pipeline's outbound pass applies no sort and returns them in store
order. -/
theorem read_unsynced_filter_order (store : List WorkOrder) :
    (∀ d, d ∈ TracosAdapter.read_unsynced_workorders store ↔
       d ∈ store ∧ d.isSynced ≠ some true) ∧
    (∀ d, d ∈ CMMSAdapter.read_unsynced_workorders store ↔
       d ∈ store ∧ d.isSynced ≠ some true) ∧
    (CMMSAdapter.read_unsynced_workorders store).Perm
      (store.filter unsyncedPred) ∧
    List.Sorted (fun a b : WorkOrder => a.number ≤ b.number)
      (CMMSAdapter.read_unsynced_workorders store) := by
  refine ⟨?_, ?_, ?_, ?_⟩
  · intro d
    simp [TracosAdapter.read_unsynced_workorders, unsyncedPred, List.mem_filter]
  · intro d
    rw [CMMSAdapter.read_unsynced_workorders,
      (List.perm_insertionSort _ _).mem_iff]
    simp [unsyncedPred, List.mem_filter]
  · exact List.perm_insertionSort _ _
  · exact List.sorted_insertionSort _ _

/-- C7 as stated is false for the TracosAdapter read the outbound pass
uses: on a store holding unsynced documents numbered 2 then 1, it
returns them as 2 then 1, which is not ascending number order. -/
theorem read_unsynced_order_counterexample :
    (TracosAdapter.read_unsynced_workorders storeEx).map WorkOrder.number =
      [2, 1] ∧
    ¬ List.Sorted (fun a b : WorkOrder => a.number ≤ b.number)
      (TracosAdapter.read_unsynced_workorders storeEx) := by
  constructor
  · decide
  · intro h
    have := List.rel_of_sorted_cons h wEx (by decide)
    exact absurd this (by decide)

end Pipeline

namespace Pipeline

/-- C4: in the outbound step, `mark_as_synced` is invoked only after the
sink write of workorder_{number}.json reports success (a mark event
appears exactly after the successful write event); a failed write
leaves the store untouched, so the record stays unsynced for the next
invocation, and produces no mark; and the write is attempted at most
once (no retry loop inside the pass). -/
theorem outbound_mark_after_write
    (translate : WorkOrder → Except CmmsErp.TransError String) (writeOk : Bool)
    (store : List WorkOrder) (w : WorkOrder) (now : Nat) (m : OutMetrics) :
    (OutEv.markedSynced w.number ∈
        (process_single_outbound_workorder translate writeOk store w now m).2.2.1 →
       writeOk = true ∧
       (process_single_outbound_workorder translate writeOk store w now m).2.2.1 =
         [OutEv.wroteFile ("workorder_" ++ toString w.number ++ ".json") true,
          OutEv.markedSynced w.number]) ∧
    (writeOk = false →
       (process_single_outbound_workorder translate writeOk store w now m).2.1 =
         store ∧
       ∀ n, OutEv.markedSynced n ∉
         (process_single_outbound_workorder translate writeOk store w now m).2.2.1) ∧
    (process_single_outbound_workorder translate writeOk store w now m).2.2.1.countP
        OutEv.isWrite ≤ 1 := by
  rcases ht : translate w with e | content <;> cases writeOk <;>
    simp [process_single_outbound_workorder, ht, OutEv.isWrite]

theorem outbound_mark_after_write_witness :
    true = true ∧
    (process_single_outbound_workorder transOkEx true storeEx wEx 7 {}).2.2.1 =
      [OutEv.wroteFile ("workorder_" ++ toString wEx.number ++ ".json") true,
       OutEv.markedSynced wEx.number] :=
  (outbound_mark_after_write transOkEx true storeEx wEx 7 {}).1 (by decide)

/-- C8: a record-level exception (an error result of the translator
collaborator) is caught inside the per-record handler, which returns
normally with the error counter incremented and the store untouched,
and both pass loops factor over list concatenation, so the records
after a failing one are still processed and the batch never aborts. -/
theorem record_error_isolation
    (translateIn : CmmsErp.ClientData → Except CmmsErp.TransError WOInput)
    (translateOut : WorkOrder → Except CmmsErp.TransError String)
    (writeOkF : WorkOrder → Bool) (now : Nat) :
    (∀ c uok store m e, validate_client_data c = true → translateIn c = .error e →
       process_single_inbound_file translateIn uok store c now m =
         (false, store,
          { m with filesValid := m.filesValid + 1, errors := m.errors + 1 })) ∧
    (∀ w writeOk store m e, translateOut w = .error e →
       process_single_outbound_workorder translateOut writeOk store w now m =
         (false, store, [], { m with errors := m.errors + 1 })) ∧
    (∀ xs ys store m,
       run_inbound_flow translateIn now (xs ++ ys) store m =
         run_inbound_flow translateIn now ys
           (run_inbound_flow translateIn now xs store m).1
           (run_inbound_flow translateIn now xs store m).2) ∧
    (∀ xs ys store evs m,
       run_outbound_flow translateOut writeOkF now (xs ++ ys) store evs m =
         run_outbound_flow translateOut writeOkF now ys
           (run_outbound_flow translateOut writeOkF now xs store evs m).1
           (run_outbound_flow translateOut writeOkF now xs store evs m).2.1
           (run_outbound_flow translateOut writeOkF now xs store evs m).2.2) := by
  refine ⟨?_, ?_, ?_, ?_⟩
  · intro c uok store m e hval htr
    simp [process_single_inbound_file, hval, htr]
  · intro w writeOk store m e htr
    simp [process_single_outbound_workorder, htr]
  · intro xs ys
    induction xs with
    | nil => intro store m; rfl
    | cons a rest ih =>
      intro store m
      rcases a with ⟨c, uok⟩
      simp only [List.cons_append, run_inbound_flow]
      exact ih _ _
  · intro xs ys
    induction xs with
    | nil => intro store evs m; rfl
    | cons a rest ih =>
      intro store evs m
      simp only [List.cons_append, run_outbound_flow]
      exact ih _ _ _

theorem record_error_isolation_witness :
    process_single_inbound_file inTransFailEx true storeEx CmmsErp.cMulti 7 {} =
      (false, storeEx, { filesValid := 1, errors := 1 }) :=
  (record_error_isolation inTransFailEx transFailEx (fun _ => true) 7).1
    CmmsErp.cMulti true storeEx {} (.missingField ["orderNo"]) rfl rfl

end Pipeline
